import Mathlib

/-!
Verification of the request/response framing and dispatch layer of the
`odoo-api` Rust crate (a typed client for Odoo's JSON-RPC API).

The definitions below are a shallow embedding of the relevant source:
JSON values stand in for `serde_json::Value`, serde (de)serialization of
the concrete envelope structs is modelled field by field following the
derive semantics used in the source, and the stateful request-id counter
is explicit state passing.  Source locations are given on each
definition.
-/

/-- Model of `serde_json::Value`: the JSON values exchanged on the wire.
Numbers are restricted to integers, which covers every field the envelope
layer reads or writes (`id`, `code`, `uid`). -/
inductive Json where
  | null : Json
  | bool (b : Bool) : Json
  | num (n : Int) : Json
  | str (s : String) : Json
  | arr (xs : List Json) : Json
  | obj (fields : List (String × Json)) : Json

/-- First field of a JSON object with the given key, as
`serde_json::Value::get` on objects (first occurrence wins). -/
def lookupField : List (String × Json) → String → Option Json
  | [], _ => none
  | (k, v) :: rest, key => if k = key then some v else lookupField rest key

/-- Model of `serde_json::Value::get(key)`: key lookup on objects, `none`
on every other value. -/
def Json.get (v : Json) (key : String) : Option Json :=
  match v with
  | .obj fields => lookupField fields key
  | _ => .none

/-- Deserialize a JSON string (serde `String` field). -/
def decodeString : Json → Option String
  | .str s => some s
  | _ => none

/-- Deserialize a `u32` field (serde rejects negative and out-of-range
numbers; 4294967296 is `2^32`, the `u32` range bound). -/
def decodeU32 : Json → Option Nat
  | .num (Int.ofNat m) => if m < 4294967296 then some m else none
  | _ => none

/-- Deserialize an `OdooId` (`i32`) field, as in
`src/odoo-api/src/jsonrpc.rs` (`pub type OdooId = i32`): the accepted
range is `-2147483648 ≤ n < 2147483648` (i.e. `±2^31`), matched on the
two integer constructors. -/
def decodeI32 : Json → Option Int
  | .num (Int.ofNat m) => if m < 2147483648 then some (Int.ofNat m) else none
  | .num (Int.negSucc m) => if m < 2147483648 then some (Int.negSucc m) else none
  | _ => none

/-- Deserialize the `jsonrpc` version tag: the single-variant enum
`JsonRpcVersion` (`#[serde(rename = "2.0")] V2`) accepts exactly the
string `"2.0"`. From `src/odoo-api/src/jsonrpc.rs`. -/
inductive JsonRpcVersion where
  | V2 : JsonRpcVersion
deriving DecidableEq

/-- Deserializer for [`JsonRpcVersion`]. -/
def decodeVersionTag : Json → Option JsonRpcVersion
  | .str s => if s = "2.0" then some .V2 else none
  | _ => none

/-- The `method` tag enum (`#[serde(rename = "call")] Call`), from
`src/odoo-api/src/jsonrpc.rs`. -/
inductive JsonRpcMethod where
  | Call : JsonRpcMethod
deriving DecidableEq

/-- The low-level error payload `JsonRpcErrorData`
(`src/odoo-api/src/jsonrpc.rs`, also `jsonrpc/response.rs`): Python
exception name, stack trace, message, arguments and context. -/
structure JsonRpcErrorData where
  name : String
  debug : String
  message : String
  arguments : List Json
  context : List (String × Json)

/-- The remote error payload `JsonRpcError`
(`src/odoo-api/src/jsonrpc.rs`, also `jsonrpc/response.rs`): error code,
classifier message string, and data. -/
structure JsonRpcError where
  code : Nat
  message : String
  data : JsonRpcErrorData

/-- Field-by-field serde deserializer for [`JsonRpcErrorData`] (derived
`Deserialize`: all fields required, unknown fields ignored). -/
def decodeErrorData (v : Json) : Option JsonRpcErrorData := do
  let name ← (v.get "name").bind decodeString
  let debug ← (v.get "debug").bind decodeString
  let message ← (v.get "message").bind decodeString
  let args ← match v.get "arguments" with
    | some (.arr xs) => some xs
    | _ => none
  let ctx ← match v.get "context" with
    | some (.obj fs) => some fs
    | _ => none
  pure ⟨name, debug, message, args, ctx⟩

/-- Field-by-field serde deserializer for [`JsonRpcError`]. -/
def decodeJsonRpcError (v : Json) : Option JsonRpcError := do
  let code ← (v.get "code").bind decodeU32
  let message ← (v.get "message").bind decodeString
  let data ← (v.get "data").bind decodeErrorData
  pure ⟨code, message, data⟩

/-- The `Success` arm of the response envelope
(`JsonRpcResponseSuccess<T>` in `src/odoo-api/src/jsonrpc/response.rs`):
fields `jsonrpc`, `id`, `result`. -/
structure JsonRpcResponseSuccess (T : Type) where
  jsonrpc : JsonRpcVersion
  id : Nat
  result : T

/-- The `Error` arm of the response envelope (`JsonRpcResponseError` in
`src/odoo-api/src/jsonrpc/response.rs`): fields `jsonrpc`, `id`,
`error`. -/
structure JsonRpcResponseError where
  jsonrpc : JsonRpcVersion
  id : Nat
  error : JsonRpcError

/-- The untagged response union `JsonRpcResponse<T>`
(`src/odoo-api/src/jsonrpc/response.rs`), discriminated by shape. -/
inductive JsonRpcResponse (T : Type) where
  | Success (s : JsonRpcResponseSuccess T) : JsonRpcResponse T
  | Error (e : JsonRpcResponseError) : JsonRpcResponse T

/-- Deserializer for the `Success` shape, parameterized by the
deserializer `decT` of the typed `result` (serde derive: `jsonrpc`, `id`
and `result` all required). -/
def decodeSuccess {T : Type} (decT : Json → Option T) (v : Json) :
    Option (JsonRpcResponseSuccess T) := do
  let ver ← (v.get "jsonrpc").bind decodeVersionTag
  let id ← (v.get "id").bind decodeU32
  let r ← (v.get "result").bind decT
  pure ⟨ver, id, r⟩

/-- Deserializer for the `Error` shape. -/
def decodeError (v : Json) : Option JsonRpcResponseError := do
  let ver ← (v.get "jsonrpc").bind decodeVersionTag
  let id ← (v.get "id").bind decodeU32
  let e ← (v.get "error").bind decodeJsonRpcError
  pure ⟨ver, id, e⟩

/-- Deserializer for the untagged union `JsonRpcResponse<T>`: serde's
`#[serde(untagged)]` tries the variants in declaration order, so the
`Success` shape is attempted first and the `Error` shape only on its
failure (`src/odoo-api/src/jsonrpc/response.rs`). -/
def decodeResponse {T : Type} (decT : Json → Option T) (v : Json) :
    Option (JsonRpcResponse T) :=
  match decodeSuccess decT v with
  | some s => some (.Success s)
  | none => (decodeError v).map .Error

/-- The subset of the client error enum `client::error::Error`
(`src/odoo-api/src/client/error.rs`) reachable from `parse_response`:
a serde decode failure (`SerdeJsonError`, the response-parse category)
or a remote-reported JSON-RPC error (`JsonRpcError`). -/
inductive ClientError where
  | SerdeJsonError : ClientError
  | JsonRpcError (e : JsonRpcError) : ClientError

/-- Embedding of `OdooRequest::parse_response`
(`src/odoo-api/src/client/odoo_request.rs`): `from_str` the body into
the untagged `JsonRpcResponse<D>`; a parse failure surfaces the serde
error, a decoded `Success` yields its `result`, a decoded `Error` yields
the remote error payload. -/
def parse_response {T : Type} (decT : Json → Option T) (body : Json) :
    Except ClientError T :=
  match decodeResponse decT body with
  | none => .error .SerdeJsonError
  | some (.Success s) => .ok s.result
  | some (.Error e) => .error (.JsonRpcError e.error)

/-- The error taxonomy of `jsonrpc::error::Error`
(`src/odoo-api/src/jsonrpc/error.rs`), restricted to the four
remote-error categories the classifier can produce. -/
inductive OdooApiError where
  | OdooServerError (e : JsonRpcError) : OdooApiError
  | OdooNotFoundError (e : JsonRpcError) : OdooApiError
  | OdooSessionExpiredError (e : JsonRpcError) : OdooApiError
  | OdooError (e : JsonRpcError) : OdooApiError

/-- The error classifier chain generated by `generate_call_blocking` and
`generate_call_async` (`src/odoo-api-macros/src/lib.rs`, lines 199-218
and 245-263), transcribed condition for condition: note that the source
tests `"404: Not Found"` twice — the second test (the one that is meant
to select `OdooSessionExpiredError`) repeats the not-found marker
instead of testing `"Odoo Session Expired"`. -/
def classify_error (e : JsonRpcError) : OdooApiError :=
  if e.message = "Odoo Server Error" then .OdooServerError e
  else if e.message = "404: Not Found" then .OdooNotFoundError e
  else if e.message = "404: Not Found" then .OdooSessionExpiredError e
  else .OdooError e

example : classify_error ⟨200, "Odoo Server Error", ⟨"", "", "", [], []⟩⟩ =
    .OdooServerError ⟨200, "Odoo Server Error", ⟨"", "", "", [], []⟩⟩ := rfl

example : classify_error ⟨200, "Odoo Session Expired", ⟨"", "", "", [], []⟩⟩ =
    .OdooError ⟨200, "Odoo Session Expired", ⟨"", "", "", [], []⟩⟩ := rfl

/-- The `params` container strategy of an endpoint, a static property of
the endpoint type (`src/odoo-api/src/jsonrpc/request.rs` and
`request/{api,orm,web}.rs`): an "API" service call carries its
compile-time service and method tags, an "ORM" call is implicitly
service `object` / method `execute_kw`, a "Web" call is transparent. -/
inductive ContainerKind where
  | api (service method : String) : ContainerKind
  | orm : ContainerKind
  | web : ContainerKind

/-- Serialization of the three container types applied to an
already-serialized payload: `OdooApiContainer`'s man-in-the-middle
`Serialize` emits `service`/`method`/`args`
(`src/odoo-api/src/jsonrpc/request/api.rs`), `OdooOrmContainer` emits
the constant tags `service="object"`/`method="execute_kw"` plus `args`
(`src/odoo-api/src/jsonrpc/request/orm.rs`), and `OdooWebContainer` is
`#[serde(transparent)]` (`src/odoo-api/src/jsonrpc/request/web.rs`). -/
def encodeParams : ContainerKind → Json → Json
  | .api service method, payload =>
      .obj [("service", .str service), ("method", .str method), ("args", payload)]
  | .orm, payload =>
      .obj [("service", .str "object"), ("method", .str "execute_kw"), ("args", payload)]
  | .web, payload => payload

/-- Serialization of the full request envelope `JsonRpcRequest<T>`
(`src/odoo-api/src/jsonrpc/request.rs`): derived field order `jsonrpc`
(`"2.0"`), `method` (`"call"`), `id`, `params` where `params` is the
container's serialization (built by the `_build` methods of
`request/{api,orm,web}.rs`). -/
def encodeRequest (kind : ContainerKind) (payload : Json) (id : Nat) : Json :=
  .obj [("jsonrpc", .str "2.0"), ("method", .str "call"), ("id", .num id),
        ("params", encodeParams kind payload)]

/-- The mutable id-allocator state of `OdooClient`
(`src/odoo-api/src/client/odoo_client.rs`): the `id: JsonRpcId` (`u32`)
field, the only state the claims under verification read. -/
structure OdooClientState where
  id : Nat

/-- Embedding of `OdooClient::new`
(`src/odoo-api/src/client/odoo_client.rs`, `id: 1`): a fresh client's
counter is seeded with 1. -/
def OdooClientState.new : OdooClientState := ⟨1⟩

/-- Embedding of `OdooClient::next_id`
(`src/odoo-api/src/client/odoo_client.rs`): return the current counter
and increment it by one (`u32` arithmetic, hence the wrap at `2^32`). -/
def next_id (c : OdooClientState) : Nat × OdooClientState :=
  (c.id, ⟨(c.id + 1) % 2 ^ 32⟩)

/-- Embedding of `OdooClient::build_request`
(`src/odoo-api/src/client/odoo_client.rs`): stamp the payload with a
fresh id from the allocator and wrap it in the request envelope of its
container kind. -/
def build_request (c : OdooClientState) (kind : ContainerKind) (payload : Json) :
    Json × OdooClientState :=
  let (i, c') := next_id c
  (encodeRequest kind payload i, c')

/-- The ids stamped on `n` requests built sequentially from one client,
each built through the allocator as `build_request` does. -/
def buildRequestIds : Nat → OdooClientState → List Nat
  | 0, _ => []
  | n + 1, c =>
      let (i, c') := next_id c
      i :: buildRequestIds n c'

/-- The login payload `SessionAuthenticate`
(`src/odoo-api/src/service/web.rs`): fields `db`, `login`, `password`. -/
structure SessionAuthenticate where
  db : String
  login : String
  password : String

/-- Derived serde serialization of [`SessionAuthenticate`] (named-field
JSON object, declaration order). -/
def SessionAuthenticate.serialize (s : SessionAuthenticate) : Json :=
  .obj [("db", .str s.db), ("login", .str s.login), ("password", .str s.password)]

/-- Embedding of `OdooClient::get_auth_request`
(`src/odoo-api/src/client/odoo_client.rs`): build the
`SessionAuthenticate` payload for the `/web/session/authenticate`
endpoint through `build_request`, consuming one id from the
allocator. -/
def get_auth_request (c : OdooClientState) (db login password : String) :
    Json × OdooClientState :=
  build_request c .web (SessionAuthenticate.serialize ⟨db, login, password⟩)

/-- The empty request payload `Version` of the `common`/`version`
endpoint (`src/odoo-api/src/service/common.rs`, `pub struct Version {}`
under `#[odoo_api(service = "common", method = "version", ...)]`). -/
structure Version where

/-- Serde serialization of [`Version`]: the `odoo_api` attribute macro
(`src/odoo-api-macros/src/odoo_api.rs`) emits no `Serialize` impl, so
the struct's own `#[derive(Serialize)]` applies, and a derived empty
named-field struct serializes as the empty JSON object. -/
def Version.serialize (_ : Version) : Json := .obj []

/-- The `Create` ORM request payload
(`src/odoo-api/src/service/orm.rs`, `#[odoo_orm(method = "create",
args = ["values"], kwargs = [])]`): database, uid, password, model and
the values of the new record(s); `values` is kept as raw JSON here since
`CreateVals` serializes untagged to its inner JSON. -/
structure Create where
  database : String
  uid : Int
  password : String
  model : String
  values : Json

/-- The serde serialization generated for [`Create`] by `impl_serialize`
of the `odoo_orm` macro (`src/odoo-api-macros/src/odoo_orm.rs`, lines
222-260): a 5-element tuple of `database`, `uid`, `password`, the
`json!([...])` array of the declared `args` (for `Create`: `values`),
and the `json!({...})` object of the declared `kwargs` (for `Create`:
empty). -/
def Create.serialize (c : Create) : Json :=
  .arr [.str c.database, .num c.uid, .str c.password, .arr [c.values], .obj []]

/-- The authentication error enum `AuthenticationError`
(`src/odoo-api/src/client/error.rs`): a serde parsing failure or the
uid-extraction failure `UidParseError`. -/
inductive AuthenticationError where
  | SerdeJsonError : AuthenticationError
  | UidParseError (msg : String) : AuthenticationError

/-- The authenticated client state `Authed`
(`src/odoo-api/src/client/odoo_client.rs`): database, login, uid,
password, and the optional session token. -/
structure Authed where
  database : String
  login : String
  uid : Int
  password : String
  session_id : Option String

/-- Embedding of `OdooClient::parse_auth_response`
(`src/odoo-api/src/client/odoo_client.rs`): look up the `uid` key of the
decoded generic result; absence is `UidParseError`, then the value is
round-tripped through `to_string`/`from_str` as an `OdooId` (`i32`) —
a value that fails that conversion surfaces as the serde error via `?` —
and on success an `Authed` state is built carrying the out-of-band
session token unchanged. -/
def parse_auth_response (db login password : String) (data : Json)
    (session_id : Option String) : Except AuthenticationError Authed :=
  match data.get "uid" with
  | none => .error (.UidParseError
      "Failed to parse UID from /web/session/authenticate call")
  | some uidv =>
      match decodeI32 uidv with
      | none => .error .SerdeJsonError
      | some uid => .ok ⟨db, login, uid, password, session_id⟩

/-- Discriminator for the `UidParseError` category of an authentication
result. -/
def isUidParseError (r : Except AuthenticationError Authed) : Bool :=
  match r with
  | .error (.UidParseError _) => true
  | _ => false

/-- The closure-transport authentication error `ClosureAuthError`
(`src/odoo-api/src/client/error.rs`): either a wrapped transport/parse
error or the uid-extraction failure; the `From<AuthenticationError>`
impl routes `SerdeJsonError` into the wrapped transport error and keeps
`UidParseError` as its own category. -/
inductive ClosureAuthError where
  | ClosureError (e : ClientError) : ClosureAuthError
  | UidParseError (msg : String) : ClosureAuthError

/-- Embedding of `OdooClient::<_, ClosureBlocking>::authenticate`
(`src/odoo-api/src/client/http_impl/closure_blocking.rs`) against a
transport stub: the stub returns the raw response `body` and the
out-of-band `session` token; the body is decoded by `parse_response`
(with the transparent `SessionAuthenticateResponse` deserializer, i.e.
any JSON value) and handed to `parse_auth_response` together with the
token; `AuthenticationError` is converted per its `From` impl. -/
def authenticate_closure (body : Json) (session : Option String)
    (db login password : String) : Except ClosureAuthError Authed :=
  match parse_response some body with
  | .error e => .error (.ClosureError e)
  | .ok data =>
      match parse_auth_response db login password data session with
      | .error (.UidParseError m) => .error (.UidParseError m)
      | .error .SerdeJsonError => .error (.ClosureError .SerdeJsonError)
      | .ok a => .ok a

/-- Embedding of `OdooRequest::<_, ClosureBlocking>::send_internal`
(`src/odoo-api/src/client/http_impl/closure_blocking.rs`): the closure's
result is either a transport error or a pair of the raw response body
and an optional new session token; the body goes through the shared
`parse_response` and the token is passed through unchanged. -/
def closure_blocking_send_internal {T : Type} (decT : Json → Option T)
    (closureOut : Except ClientError (Json × Option String)) :
    Except ClientError (T × Option String) :=
  match closureOut with
  | .error e => .error e
  | .ok (body, session_id) =>
      match parse_response decT body with
      | .error e => .error e
      | .ok t => .ok (t, session_id)

/-- Embedding of `OdooRequest::<_, ClosureAsync>::send_internal`
(`src/odoo-api/src/client/http_impl/closure_async.rs`): identical
processing to the blocking variant once the future is resolved — the
async file clones the url and maps the session token to an owned string
before invoking the closure, neither of which affects the produced
value. -/
def closure_async_send_internal {T : Type} (decT : Json → Option T)
    (closureOut : Except ClientError (Json × Option String)) :
    Except ClientError (T × Option String) :=
  match closureOut with
  | .error e => .error e
  | .ok (body, session_id) =>
      match parse_response decT body with
      | .error e => .error e
      | .ok t => .ok (t, session_id)

/-- Embedding of `OdooRequest::<_, ReqwestBlocking>::send_internal`
(`src/odoo-api/src/client/http_impl/reqwest_blocking.rs`): the response
text is parsed by the shared `parse_response` and the out-of-band
session-token slot is hardcoded to `None` (the cookie jar inside the
reqwest client keeps the real session cookie). -/
def reqwest_blocking_send_internal {T : Type} (decT : Json → Option T)
    (body : Json) : Except ClientError (T × Option String) :=
  match parse_response decT body with
  | .error e => .error e
  | .ok t => .ok (t, none)

/-- Embedding of `OdooRequest::<_, ReqwestAsync>::send_internal`
(`src/odoo-api/src/client/http_impl/reqwest_async.rs`): same processing
as the blocking variant, session-token slot hardcoded to `None`. -/
def reqwest_async_send_internal {T : Type} (decT : Json → Option T)
    (body : Json) : Except ClientError (T × Option String) :=
  match parse_response decT body with
  | .error e => .error e
  | .ok t => .ok (t, none)

/-- Embedding of `OdooClient::<_, ReqwestBlocking>::authenticate`
(`src/odoo-api/src/client/http_impl/reqwest_blocking.rs`): send the auth
request through `send_internal` (whose session slot is always `None`)
and feed the decoded response plus that token into
`parse_auth_response`. -/
def authenticate_reqwest (body : Json) (db login password : String) :
    Except ClosureAuthError Authed :=
  match reqwest_blocking_send_internal some body with
  | .error e => .error (.ClosureError e)
  | .ok (data, session_id) =>
      match parse_auth_response db login password data session_id with
      | .error (.UidParseError m) => .error (.UidParseError m)
      | .error .SerdeJsonError => .error (.ClosureError .SerdeJsonError)
      | .ok a => .ok a

/-- Response body of the `Success` shape: the wire object
`jsonrpc`/`id`/`result`, as produced by Odoo and by the crate's own
serialization of `JsonRpcResponseSuccess`. -/
def successBody (id : Nat) (r : Json) : Json :=
  .obj [("jsonrpc", .str "2.0"), ("id", .num id), ("result", r)]

/-- Response body of the `Error` shape: the wire object
`jsonrpc`/`id`/`error`. -/
def errorBody (id : Nat) (e : Json) : Json :=
  .obj [("jsonrpc", .str "2.0"), ("id", .num id), ("error", e)]

/-- C1: the generated error classifier maps the marker `"Odoo Server
Error"` to `OdooServerError` and `"404: Not Found"` to
`OdooNotFoundError`, each preserving the payload — but, because the
source's third test repeats `"404: Not Found"` instead of testing
`"Odoo Session Expired"`, the session-expired marker falls through to
the generic `OdooError` category, and no error whatsoever is ever
classified as `OdooSessionExpiredError`. -/
theorem classifier_session_marker_dead_branch :
    (∀ (c : Nat) (d : JsonRpcErrorData),
      classify_error ⟨c, "Odoo Server Error", d⟩ =
        .OdooServerError ⟨c, "Odoo Server Error", d⟩)
  ∧ (∀ (c : Nat) (d : JsonRpcErrorData),
      classify_error ⟨c, "404: Not Found", d⟩ =
        .OdooNotFoundError ⟨c, "404: Not Found", d⟩)
  ∧ (∀ (c : Nat) (d : JsonRpcErrorData),
      classify_error ⟨c, "Odoo Session Expired", d⟩ =
        .OdooError ⟨c, "Odoo Session Expired", d⟩)
  ∧ (∀ e : JsonRpcError, classify_error e ≠ .OdooSessionExpiredError e) := by
  refine ⟨fun c d => rfl, fun c d => rfl, fun c d => rfl, fun e => ?_⟩
  unfold classify_error
  split_ifs <;> simp

/-- C2: shape discrimination of the response decoder: a well-formed
envelope carrying a `result` key decodes to the `Success` variant and
`parse_response` returns its payload; a well-formed envelope carrying an
`error` key decodes to the `Error` variant and `parse_response` returns
the remote error; a body with neither key yields the serde parse-error
category; and the untagged decode tries the `Success` shape first. -/
theorem response_shape_discrimination :
    (∀ (n : Nat) (r : Json), n < 2 ^ 32 →
      parse_response (T := Json) some (successBody n r) = .ok r)
  ∧ (∀ (n : Nat) (ej : Json) (err : JsonRpcError), n < 2 ^ 32 →
      decodeJsonRpcError ej = some err →
      parse_response (T := Json) some (errorBody n ej) =
        .error (.JsonRpcError err))
  ∧ (∀ v : Json, v.get "result" = none → v.get "error" = none →
      parse_response (T := Json) some v = .error .SerdeJsonError)
  ∧ (∀ (v : Json) (s : JsonRpcResponseSuccess Json),
      decodeSuccess some v = some s →
      decodeResponse some v = some (.Success s)) := by
  refine ⟨?_, ?_, ?_, ?_⟩
  · intro n r h
    simp [parse_response, decodeResponse, decodeSuccess, successBody,
      Json.get, lookupField, decodeVersionTag, decodeU32]
    rw [if_pos (show n < 4294967296 by omega)]
    rfl
  · intro n ej err h hdec
    simp [parse_response, decodeResponse, decodeSuccess, decodeError,
      errorBody, Json.get, lookupField, decodeVersionTag, decodeU32, hdec]
    rw [if_pos (show n < 4294967296 by omega)]
    rfl
  · intro v hr he
    simp [parse_response, decodeResponse, decodeSuccess, decodeError, hr, he]
  · intro v s h
    simp [decodeResponse, h]

/-- C3 counterexample: the encode/decode round trip is not the identity
for the service-call container. With payload `[]`, id 1 and the
`common`/`version` service tags, decoding the echoed `params` as a
Success result yields the `service`/`method`/`args` wrapper object, not
the original payload. -/
theorem roundtrip_api_container_not_identity :
    parse_response (T := Json) some
        (successBody 1 (encodeParams (.api "common" "version") (.arr []))) =
      .ok (.obj [("service", .str "common"), ("method", .str "version"),
                 ("args", .arr [])])
  ∧ Json.obj [("service", .str "common"), ("method", .str "version"),
      ("args", .arr [])] ≠ .arr [] := by
  exact ⟨rfl, by simp⟩

/-- C3 (amended): echoing the envelope's `params` back as a Success
result and decoding it is the identity for the transparent web
container; for the service-call and ORM containers the decoded value is
the `service`/`method`/`args` wrapper object, whose `args` field (not
the value itself) equals the original payload. -/
theorem roundtrip_by_container (p : Json) (id : Nat) (h : id < 2 ^ 32) :
    parse_response (T := Json) some (successBody id (encodeParams .web p)) =
      .ok p
  ∧ (∀ s m : String,
      parse_response (T := Json) some
          (successBody id (encodeParams (.api s m) p)) =
        .ok (.obj [("service", .str s), ("method", .str m), ("args", p)]))
  ∧ parse_response (T := Json) some (successBody id (encodeParams .orm p)) =
      .ok (.obj [("service", .str "object"), ("method", .str "execute_kw"),
                 ("args", p)])
  ∧ (∀ s m : String,
      (Json.obj [("service", .str s), ("method", .str m), ("args", p)]).get
          "args" = some p) := by
  refine ⟨?_, ?_, ?_, ?_⟩
  · simp [parse_response, decodeResponse, decodeSuccess, successBody,
      encodeParams, Json.get, lookupField, decodeVersionTag, decodeU32]
    rw [if_pos (show id < 4294967296 by omega)]
    rfl
  · intro s m
    simp [parse_response, decodeResponse, decodeSuccess, successBody,
      encodeParams, Json.get, lookupField, decodeVersionTag, decodeU32]
    rw [if_pos (show id < 4294967296 by omega)]
    rfl
  · simp [parse_response, decodeResponse, decodeSuccess, successBody,
      encodeParams, Json.get, lookupField, decodeVersionTag, decodeU32]
    rw [if_pos (show id < 4294967296 by omega)]
    rfl
  · intro s m
    simp [Json.get, lookupField]

/-- Witness for the amended C3 theorem at payload `7`, id `1`. -/
theorem roundtrip_by_container_witness :
    (1 : Nat) < 2 ^ 32 ∧
      parse_response (T := Json) some
          (successBody 1 (encodeParams .web (.num 7))) = .ok (.num 7) :=
  ⟨by norm_num, (roundtrip_by_container (.num 7) 1 (by norm_num)).1⟩

/-- List of the first `n` values of `List.range'`-style counting kept as
a helper statement: building `n` requests starting from counter state
`s` (with `s + n` within the `u32` range) stamps exactly the ids
`s, s+1, ..., s+n-1`. -/
theorem buildRequestIds_eq_range (n : Nat) : ∀ s : Nat, s + n ≤ 2 ^ 32 →
    buildRequestIds n ⟨s⟩ = List.range' s n := by
  induction n with
  | zero => intro s _; rfl
  | succ m ih =>
    intro s h
    cases m with
    | zero => simp [buildRequestIds, next_id, List.range']
    | succ k =>
      have hs : (s + 1) % 2 ^ 32 = s + 1 := Nat.mod_eq_of_lt (by omega)
      have hrec : buildRequestIds (k + 1) ⟨(s + 1) % 2 ^ 32⟩ =
          List.range' (s + 1) (k + 1) := by
        rw [hs]
        exact ih (s + 1) (by omega)
      show s :: buildRequestIds (k + 1) ⟨(s + 1) % 2 ^ 32⟩ =
        List.range' s (k + 1 + 1)
      rw [hrec]
      rfl

/-- C4: a fresh client's allocator is seeded with 1 and `N` sequentially
built requests are stamped with the strictly increasing ids
`1, 2, ..., N`; every request built through `build_request` carries
exactly the id the allocator returns, and the request built internally
by `get_auth_request` (the authenticate path) also consumes one id from
the same counter (on a fresh client it is stamped 1 and leaves the
counter at 2). -/
theorem request_ids_sequential (N : Nat) (h : N < 2 ^ 32) :
    buildRequestIds N .new = List.range' 1 N
  ∧ (∀ (c : OdooClientState) (kind : ContainerKind) (p : Json),
      ((build_request c kind p).1).get "id" = some (.num ((next_id c).1)))
  ∧ (∀ db login pw : String,
      ((get_auth_request .new db login pw).1).get "id" = some (.num 1)
      ∧ (get_auth_request .new db login pw).2.id = 2) := by
  refine ⟨?_, ?_, ?_⟩
  · exact buildRequestIds_eq_range N 1 (by omega)
  · intro c kind p
    cases kind <;>
      simp [build_request, next_id, encodeRequest, Json.get, lookupField]
  · intro db login pw
    constructor
    · simp [get_auth_request, build_request, next_id, encodeRequest,
        OdooClientState.new, Json.get, lookupField]
    · rfl

/-- Witness for C4 at `N = 3`: the three ids are `[1, 2, 3]`. -/
theorem request_ids_sequential_witness :
    (3 : Nat) < 2 ^ 32 ∧ buildRequestIds 3 .new = List.range' 1 3 :=
  ⟨by norm_num, (request_ids_sequential 3 (by norm_num)).1⟩

/-- C5: authenticating an unauthenticated client against a closure
transport stub whose response result carries `uid = 7` and which
surfaces the out-of-band session token `"abc"` yields an authenticated
state with `uid = 7` and `session_id = some "abc"` and the credentials
stored verbatim; against a stub whose result has no `uid` key,
authenticate fails with the `UidParseError` category — no default uid is
substituted and no authenticated state is produced. -/
theorem authenticate_state_transition (db login pw : String) :
    authenticate_closure (successBody 1 (.obj [("uid", .num 7)]))
        (some "abc") db login pw = .ok ⟨db, login, 7, pw, some "abc"⟩
  ∧ authenticate_closure (successBody 1 (.obj [("session_info", .null)]))
        (some "abc") db login pw =
      .error (.UidParseError
        "Failed to parse UID from /web/session/authenticate call") := by
  exact ⟨rfl, rfl⟩

/-- C6 counterexample: a login result whose `uid` key is present but not
parseable as a user id (here `uid = false`, which is what Odoo actually
returns on a failed login) is reported as the serde-parse category
`SerdeJsonError`, not as `UidParseError`. -/
theorem uid_extraction_not_always_uid_parse_error :
    parse_auth_response "db" "login" "pw" (.obj [("uid", .bool false)]) none =
      .error .SerdeJsonError
  ∧ isUidParseError
      (parse_auth_response "db" "login" "pw" (.obj [("uid", .bool false)])
        none) = false := by
  exact ⟨rfl, rfl⟩

/-- C6 (amended): of the uid-extraction failures in
`parse_auth_response`, only the absence of the `uid` key is reported as
`UidParseError`; a `uid` value that is present but fails to deserialize
as a user id is reported as the serde-parse category instead. -/
theorem uid_extraction_error_categories :
    (∀ (db login pw : String) (data : Json) (sid : Option String),
      data.get "uid" = none →
      parse_auth_response db login pw data sid =
        .error (.UidParseError
          "Failed to parse UID from /web/session/authenticate call"))
  ∧ (∀ (db login pw : String) (data : Json) (sid : Option String)
      (v : Json), data.get "uid" = some v → decodeI32 v = none →
      parse_auth_response db login pw data sid = .error .SerdeJsonError) := by
  constructor
  · intro db login pw data sid hget
    simp [parse_auth_response, hget]
  · intro db login pw data sid v hget hdec
    simp [parse_auth_response, hget, hdec]

/-- Witness for the amended C6 theorem: both categories observed on
concrete inputs. -/
theorem uid_extraction_error_categories_witness :
    (Json.obj []).get "uid" = none ∧
      parse_auth_response "d" "l" "p" (.obj []) none =
        .error (.UidParseError
          "Failed to parse UID from /web/session/authenticate call") :=
  ⟨rfl, uid_extraction_error_categories.1 "d" "l" "p" (.obj []) none rfl⟩

/-- C7: the request built from the empty `Version` payload of the
`common` service, stamped by a fresh client's allocator (id 1), carries
the outer literal `"call"` and the params object
`service = "common"`/`method = "version"` — but its `args` value is the
empty JSON object (the derived serialization of the empty named-field
struct), not the empty JSON array the wire format of the `common`
service expects. -/
theorem version_request_args_is_object :
    (build_request .new (.api "common" "version") (Version.serialize ⟨⟩)).1 =
      .obj [("jsonrpc", .str "2.0"), ("method", .str "call"), ("id", .num 1),
            ("params", .obj [("service", .str "common"),
                             ("method", .str "version"),
                             ("args", .obj [])])]
  ∧ Json.obj [] ≠ .arr [] := by
  exact ⟨rfl, by simp⟩

/-- C8: serializing an ORM `Create` request params does emit the
constant tags `service = "object"` and `method = "execute_kw"`, and
`args` is the payload's own serialization — but that serialization is
the 5-element tuple `(database, uid, password, [positional args],
{keyword args})`, which contains neither the model name
(`"res.partner"`) nor the ORM method name (`"create"`) that the generic
`execute_kw` dispatcher expects in its positional-argument list. -/
theorem orm_serialization_missing_model_and_method :
    encodeParams .orm (Create.serialize
        ⟨"db", 2, "pw", "res.partner", .obj [("name", .str "Example")]⟩) =
      .obj [("service", .str "object"), ("method", .str "execute_kw"),
            ("args", .arr [.str "db", .num 2, .str "pw",
                           .arr [.obj [("name", .str "Example")]], .obj []])]
  ∧ Json.str "res.partner" ∉
      [Json.str "db", .num 2, .str "pw",
       .arr [.obj [("name", .str "Example")]], .obj []]
  ∧ Json.str "create" ∉
      [Json.str "db", .num 2, .str "pw",
       .arr [.obj [("name", .str "Example")]], .obj []] := by
  refine ⟨rfl, by simp, by simp⟩

/-- C9: for any result-type deserializer and any transport outcome
(byte-identical response bodies and session tokens), the blocking and
async closure transports produce equal decoded results and identically
classified errors, and likewise for the blocking and async reqwest
transports: the transport choice never changes the behaviour of the
envelope codec or the error classification. -/
theorem transport_interchangeability :
    (∀ (T : Type) (decT : Json → Option T)
      (out : Except ClientError (Json × Option String)),
      closure_blocking_send_internal decT out =
        closure_async_send_internal decT out)
  ∧ (∀ (T : Type) (decT : Json → Option T) (body : Json),
      reqwest_blocking_send_internal decT body =
        reqwest_async_send_internal decT body) := by
  exact ⟨fun T decT out => rfl, fun T decT body => rfl⟩

/-- Session-token pass-through of `parse_auth_response`: a successful
authentication stores exactly the out-of-band token it was handed. -/
theorem parse_auth_response_session (db login pw : String) (data : Json)
    (sid : Option String) (a : Authed)
    (h : parse_auth_response db login pw data sid = .ok a) :
    a.session_id = sid := by
  unfold parse_auth_response at h
  split at h
  · exact absurd h (by simp)
  · split at h
    · exact absurd h (by simp)
    · simp only [Except.ok.injEq] at h
      rw [← h]

/-- C10: both reqwest transports always return `none` in the
out-of-band session-token slot, and consequently a client authenticated
through a reqwest transport stores `session_id = none` in its
authenticated state. -/
theorem reqwest_session_token_always_none :
    (∀ (T : Type) (decT : Json → Option T) (body : Json) (t : T)
      (sid : Option String),
      reqwest_blocking_send_internal decT body = .ok (t, sid) → sid = none)
  ∧ (∀ (T : Type) (decT : Json → Option T) (body : Json) (t : T)
      (sid : Option String),
      reqwest_async_send_internal decT body = .ok (t, sid) → sid = none)
  ∧ (∀ (body : Json) (db login pw : String) (a : Authed),
      authenticate_reqwest body db login pw = .ok a →
      a.session_id = none) := by
  refine ⟨?_, ?_, ?_⟩
  · intro T decT body t sid h
    unfold reqwest_blocking_send_internal at h
    cases hp : parse_response decT body with
    | error e => rw [hp] at h; exact absurd h (by simp)
    | ok t' =>
        rw [hp] at h
        simp only [Except.ok.injEq, Prod.mk.injEq] at h
        exact h.2.symm
  · intro T decT body t sid h
    unfold reqwest_async_send_internal at h
    cases hp : parse_response decT body with
    | error e => rw [hp] at h; exact absurd h (by simp)
    | ok t' =>
        rw [hp] at h
        simp only [Except.ok.injEq, Prod.mk.injEq] at h
        exact h.2.symm
  · intro body db login pw a h
    unfold authenticate_reqwest at h
    cases hs : reqwest_blocking_send_internal (T := Json) some body with
    | error e => rw [hs] at h; exact absurd h (by simp)
    | ok pr =>
        obtain ⟨data, sid⟩ := pr
        rw [hs] at h
        have hnone : sid = none := by
          unfold reqwest_blocking_send_internal at hs
          split at hs
          · exact absurd hs (by simp)
          · simp only [Except.ok.injEq, Prod.mk.injEq] at hs
            exact hs.2.symm
        have h2 : (match parse_auth_response db login pw data sid with
            | .error (.UidParseError m) =>
                (.error (.UidParseError m) : Except ClosureAuthError Authed)
            | .error .SerdeJsonError => .error (.ClosureError .SerdeJsonError)
            | .ok x => .ok x) = .ok a := h
        split at h2
        · exact absurd h2 (by simp)
        · exact absurd h2 (by simp)
        · rename_i x hx
          simp only [Except.ok.injEq] at h2
          rw [← h2, parse_auth_response_session db login pw data sid x hx,
            hnone]

/-- Witness for C10: a concrete successful reqwest authentication whose
resulting state holds `session_id = none`. -/
theorem reqwest_session_token_always_none_witness :
    authenticate_reqwest (successBody 1 (.obj [("uid", .num 7)]))
        "d" "l" "p" = .ok ⟨"d", "l", 7, "p", none⟩
    ∧ (Authed.session_id ⟨"d", "l", 7, "p", none⟩) = none :=
  ⟨rfl, reqwest_session_token_always_none.2.2
    (successBody 1 (.obj [("uid", .num 7)])) "d" "l" "p"
    ⟨"d", "l", 7, "p", none⟩ rfl⟩

/-- Witness for C2: the shape discrimination evaluated at a concrete
success body. -/
theorem response_shape_discrimination_witness :
    (1 : Nat) < 2 ^ 32 ∧
      parse_response (T := Json) some (successBody 1 (.num 5)) =
        .ok (.num 5) :=
  ⟨by norm_num, response_shape_discrimination.1 1 (.num 5) (by norm_num)⟩
